import Mathlib

/-!
Verification of `src/UNFLoader/helper.cpp` (N64-UNFLoader helper module):
the termination protocol, device-error classifier, identifier codec
(cartridge / CIC / save type), unique-filename generator, and progress
renderer.  C strings are modelled as `List Char` (no embedded NUL); the
out-of-repository collaborators (`device`, `debug`, `term`, the logger)
are modelled as parameters and emitted event traces.
-/

namespace UNFLoader

/-- A C string: a list of characters, conceptually NUL-terminated.  C code
never stores a NUL inside a string, which `nulFree` captures. -/
abbrev CStr := List Char

/-- The NUL terminator character. -/
def NUL : Char := Char.ofNat 0

/-- `cchar s i` models `s[i]` on a NUL-terminated C string: past the end the
terminator itself is read. -/
def cchar (s : CStr) (i : Nat) : Char := s.getD i NUL

/-- True when the string contains no embedded NUL, as every real C string
argument does. -/
def nulFree (s : CStr) : Bool := s.all (fun c => c ≠ NUL)

/-- Modelled from the spec: color tags of the line-output collaborator
(`CRDEF_*`, defined in `main.h`, which is outside the visible source).
Their concrete codes are opaque; three distinct values are used. -/
def CRDEF_PROGRAM : Int := 1

/-- Modelled from the spec: the error color tag (see `CRDEF_PROGRAM`). -/
def CRDEF_ERROR : Int := 2

/-- Modelled from the spec: the input color tag (see `CRDEF_PROGRAM`). -/
def CRDEF_INPUT : Int := 3

/-- One emission through the line-output collaborator: `log_colored`
appends a line, `log_replace` rewrites the current line in place. -/
inductive LogEvent where
  | colored (msg : CStr) (color : Int)
  | replace (msg : CStr) (color : Int)
deriving DecidableEq, Repr

/- ===== Enum constants =====
Modelled from the spec: the `CartType`, `CICType` and `SaveType`
enumerations are declared in `device.h`, outside the visible source.  The
spec fixes their layout: contiguous ranges, cartridge and save type
one-based with a NONE sentinel at 0, CIC zero-based. -/

/-- Modelled from the spec: `CartType` is a one-based contiguous enum with a
NONE sentinel at 0; `CART_NONE = 0`. -/
def CART_NONE : Int := 0

/-- Modelled from the spec: first valid cartridge enum value (one-based). -/
def CART_64DRIVE1 : Int := 1

/-- Modelled from the spec: last valid cartridge enum value. -/
def CART_SC64 : Int := 4

/-- Modelled from the spec: first valid CIC enum value (zero-based). -/
def CIC_6101 : Int := 0

/-- Modelled from the spec: last valid CIC enum value. -/
def CIC_5101 : Int := 7

/-- Modelled from the spec: first valid save-type enum value (one-based). -/
def SAVE_EEPROM4K : Int := 1

/-- Modelled from the spec: last valid save-type enum value. -/
def SAVE_FLASHRAMPKMN : Int := 6

/-- The character code of `'0'`, used by the single-digit shorthand tests. -/
def digit0 : Int := ('0'.toNat : Int)

/-- `cart_strings` from helper.cpp, in order of the CartType enums. -/
def cart_strings : List CStr :=
  ["64Drive HW1".data, "64Drive HW2".data, "EverDrive".data, "SC64".data]

/-- `cic_strings` from helper.cpp, in order of the CICType enums. -/
def cic_strings : List CStr :=
  ["6101".data, "6102".data, "7101".data, "7102".data,
   "X103".data, "X105".data, "X106".data, "5101".data]

/-- `save_strings` from helper.cpp, in order of the SaveType enums. -/
def save_strings : List CStr :=
  ["EEPROM 4Kbit".data, "EEPROM 16Kbit".data, "SRAM 256Kbit".data,
   "FlashRAM 1Mbit".data, "SRAM 768Kbit".data,
   "FlashRAM 1Mbit (PokeStdm2)".data]

/-- Result of a `*_strtotype` call: either an enum value, or an invocation
of the Termination Protocol (`terminate`) with the formatted message, which
aborts the process so the function never returns. -/
inductive ParseResult where
  | ok (v : Int)
  | terminated (msg : CStr)
deriving DecidableEq, Repr

/-- The linear search loop shared by the three `*_strtotype` functions:
`for (i = 0; i < count; i++) if (!strcmp(strings[i], s)) return ...i...;`.
Returns the index of the first exact match, if any. -/
def strTableFind (tbl : List CStr) (s : CStr) : Option Nat :=
  match tbl with
  | [] => none
  | t :: rest => if t = s then some 0 else (strTableFind rest s).map (· + 1)

/-- `cart_strtotype` from helper.cpp: single-digit shorthand in
`['0'+CART_64DRIVE1, '0'+CART_SC64]` with `s[1] == '\0'`, else first exact
match in `cart_strings` (returning index + 1), else terminate. -/
def cart_strtotype (s : CStr) : ParseResult :=
  if digit0 + CART_64DRIVE1 ≤ ((cchar s 0).toNat : Int) ∧
     ((cchar s 0).toNat : Int) ≤ digit0 + CART_SC64 ∧ cchar s 1 = NUL then
    .ok (((cchar s 0).toNat : Int) - digit0)
  else
    match strTableFind cart_strings s with
    | some i => .ok ((i : Int) + 1)
    | none   => .terminated ("Unknown flashcart type '".data ++ s ++ "'".data)

/-- `cic_strtotype` from helper.cpp: single-digit shorthand in
`['0'+CIC_6101, '0'+CIC_5101]`, else first exact match in `cic_strings`
(returning the index itself, zero-based), else terminate. -/
def cic_strtotype (s : CStr) : ParseResult :=
  if digit0 + CIC_6101 ≤ ((cchar s 0).toNat : Int) ∧
     ((cchar s 0).toNat : Int) ≤ digit0 + CIC_5101 ∧ cchar s 1 = NUL then
    .ok (((cchar s 0).toNat : Int) - digit0)
  else
    match strTableFind cic_strings s with
    | some i => .ok (i : Int)
    | none   => .terminated ("Unknown CIC '".data ++ s ++ "'".data)

/-- `save_strtotype` from helper.cpp: single-digit shorthand in
`['0'+SAVE_EEPROM4K, '0'+SAVE_FLASHRAMPKMN]`, else first exact match in
`save_strings` (returning index + 1), else terminate. -/
def save_strtotype (s : CStr) : ParseResult :=
  if digit0 + SAVE_EEPROM4K ≤ ((cchar s 0).toNat : Int) ∧
     ((cchar s 0).toNat : Int) ≤ digit0 + SAVE_FLASHRAMPKMN ∧ cchar s 1 = NUL then
    .ok (((cchar s 0).toNat : Int) - digit0)
  else
    match strTableFind save_strings s with
    | some i => .ok ((i : Int) + 1)
    | none   => .terminated ("Unknown save type '".data ++ s ++ "'".data)

/-- Indexing a C string table at a signed index: `none` models an
out-of-bounds access (undefined behavior in the C source). -/
def tableGet (tbl : List CStr) (i : Int) : Option CStr :=
  if i < 0 then none else tbl.get? i.toNat

/-- `cart_typetostr` from helper.cpp: `cart_strings[(int)cartenum - 1]`. -/
def cart_typetostr (cartenum : Int) : Option CStr :=
  tableGet cart_strings (cartenum - 1)

/-- `cic_typetostr` from helper.cpp: `cic_strings[(int)cicenum]`. -/
def cic_typetostr (cicenum : Int) : Option CStr :=
  tableGet cic_strings cicenum

/-- `save_typetostr` from helper.cpp: `save_strings[(int)saveenum - 1]`. -/
def save_typetostr (saveenum : Int) : Option CStr :=
  tableGet save_strings (saveenum - 1)

/- ===== Termination Protocol ===== -/

/-- Process-wide state read by `terminate`: whether the debug-output file
handle is open (`debug_getdebugout() != NULL`), whether the device is open
(`device_isopen()`), and whether curses rendering is active
(`term_isusingcurses()`). -/
structure TermState where
  debugOpen : Bool
  deviceOpen : Bool
  usingCurses : Bool
deriving DecidableEq, Repr

/-- One observable step of `terminate`, in program order. -/
inductive TermAction where
  | logColored (msg : CStr) (color : Int)
  | closeDebugOut
  | closeDevice
  | systemPause
  | rawKeypress
  | cursesGetch
  | setTerminating
  | termEnd
  | exitProcess (code : Int)
deriving DecidableEq, Repr

/-- `terminate` from helper.cpp, as the trace of its straight-line path.
`reason` is the already-formatted message (`none` models a NULL pointer);
`linux` selects the platform branch of the keypress wait.  Note the blank
error-colored line (`log_colored("\n", CRDEF_ERROR)`) sits outside the
`if (reason != NULL && strcmp(reason, ""))` guard in the source, so it is
emitted unconditionally. -/
def terminate (linux : Bool) (reason : Option CStr) (st : TermState) :
    List TermAction :=
  (match reason with
   | none => []
   | some m => if m = [] then []
               else [.logColored ("Error: ".data ++ m) CRDEF_ERROR]) ++
  [.logColored "\n".data CRDEF_ERROR] ++
  (if st.debugOpen then [.closeDebugOut] else []) ++
  (if st.deviceOpen then [.closeDevice] else []) ++
  [.logColored "Press any key to continue...\n".data CRDEF_INPUT] ++
  (if st.usingCurses then [.cursesGetch]
   else if linux then [.rawKeypress] else [.systemPause]) ++
  [.setTerminating, .termEnd, .exitProcess (-1)]

/- ===== Device-Error Classifier ===== -/

/-- Modelled from the spec: FTDI bitmode constants from the (external)
`ftd2xx.h` header; `FT_BITMODE_RESET = 0`. -/
def FT_BITMODE_RESET : Int := 0

/-- Modelled from the spec: `FT_BITMODE_SYNC_FIFO = 0x40` from the external
FTDI header. -/
def FT_BITMODE_SYNC_FIFO : Int := 64

/-- Modelled from the spec: the `DeviceError` enumeration from `device.h`
(outside the visible source), one constructor per variant named in
`handle_deviceerror`, plus `unknown n` for any other (out-of-domain)
numeric code an int-typed error could carry. -/
inductive DeviceError where
  | USBBUSY | NODEVICES | CARTFINDFAIL | CANTOPEN | RESETFAIL
  | RESETPORTFAIL | TIMEOUTSETFAIL | PURGEFAIL | READFAIL | WRITEFAIL
  | WRITEZERO | CLOSEFAIL | BITMODEFAIL_RESET | BITMODEFAIL_SYNCFIFO
  | SETDTRFAIL | CLEARDTRFAIL | TXREPLYMISMATCH | READCOMPSIGFAIL
  | NOCOMPSIG | READPACKSIZEFAIL | BADPACKSIZE | MALLOCFAIL
  | UPLOADCANCELLED | TIMEOUT | D64_8303USB | D64_BADCMP | D64_CANTDEBUG
  | D64_BADDMA | SC64_CTRLRESETFAIL | SC64_CTRLRELEASEFAIL
  | SC64_FIRMWARECHECKFAIL | SC64_FIRMWAREUNKNOWN
  | OK | NOTCART
  | unknown (code : Int)
deriving DecidableEq, Repr

/-- Outcome of `handle_deviceerror`: either the Termination Protocol was
invoked with the given formatted message (aborting the process), or the
function returned normally after emitting the given log events. -/
inductive ClassifyOutcome where
  | terminated (msg : CStr)
  | returned (logs : List LogEvent)
deriving DecidableEq, Repr

/-- `handle_deviceerror` from helper.cpp.  `linux` selects the platform
branch of the no-flashcart diagnostic; `cart` is the value of
`device_getcart()` consulted by the `DEVICEERR_CARTFINDFAIL` case. -/
def handle_deviceerror (linux : Bool) (cart : Int) :
    DeviceError → ClassifyOutcome
  | .USBBUSY => .terminated "USB Device not ready.".data
  | .NODEVICES => .terminated "No FTDI USB devices found.".data
  | .CARTFINDFAIL =>
      if cart = CART_NONE then
        if linux then
          .terminated "No flashcart detected. Are you running sudo?".data
        else
          .terminated "No flashcart detected".data
      else .terminated "Requested flashcart not detected.".data
  | .CANTOPEN => .terminated "Could not open USB device.".data
  | .RESETFAIL => .terminated "Unable to reset USB device.".data
  | .RESETPORTFAIL => .terminated "Unable to reset USB port.".data
  | .TIMEOUTSETFAIL => .terminated "Unable to set flashcart timeouts.".data
  | .PURGEFAIL => .terminated "Unable to purge USB contents.".data
  | .READFAIL => .terminated "Unable to read from flashcart.".data
  | .WRITEFAIL => .terminated "Unable to write to flashcart.".data
  | .WRITEZERO => .terminated "Zero bytes were written to flashcart.".data
  | .CLOSEFAIL => .terminated "Unable to close flashcart.".data
  | .BITMODEFAIL_RESET =>
      .terminated ("Unable to set bitmode ".data ++
        (toString FT_BITMODE_RESET).data ++ ".".data)
  | .BITMODEFAIL_SYNCFIFO =>
      .terminated ("Unable to set bitmode ".data ++
        (toString FT_BITMODE_SYNC_FIFO).data ++ ".".data)
  | .SETDTRFAIL => .terminated "Unable to set DTR line.".data
  | .CLEARDTRFAIL => .terminated "Unable to clear DTR line.".data
  | .TXREPLYMISMATCH =>
      .terminated "Actual bytes written amount is different than desired.".data
  | .READCOMPSIGFAIL => .terminated "Unable to read completion signal.".data
  | .NOCOMPSIG => .terminated "Did not receive completion signal.".data
  | .READPACKSIZEFAIL => .terminated "Unable to read packet size.".data
  | .BADPACKSIZE => .terminated "Wrong read packet size.".data
  | .MALLOCFAIL => .terminated "Malloc failure.".data
  | .UPLOADCANCELLED =>
      .returned [.replace "Upload cancelled by the user.\n".data CRDEF_PROGRAM]
  | .TIMEOUT => .terminated "Flashcart timed out.".data
  | .D64_8303USB =>
      .terminated "The 8303 CIC is not supported through USB.".data
  | .D64_BADCMP => .terminated "Received bad CMP signal.".data
  | .D64_CANTDEBUG =>
      .terminated
        "Please upgrade to firmware 2.05 or higher to access USB debugging.".data
  | .D64_BADDMA => .terminated "Unexpected DMA header.".data
  | .SC64_CTRLRESETFAIL =>
      .terminated "Couldn't perform SC64 controller reset.".data
  | .SC64_CTRLRELEASEFAIL =>
      .terminated "Couldn't release SC64 controller reset.".data
  | .SC64_FIRMWARECHECKFAIL =>
      .terminated "Couldn't get SC64 firmware version.".data
  | .SC64_FIRMWAREUNKNOWN =>
      .terminated "Unknown SC64 firmware version.".data
  | .OK => .returned []
  | .NOTCART => .returned []
  | .unknown n =>
      .returned [.colored ("Unhandled device error '".data ++
        (toString n).data ++ "'.\n".data) CRDEF_ERROR]

/-- True exactly on the error values the classifier handles without
invoking the Termination Protocol: the user-cancelled upload, the two
sentinels, and any out-of-domain code. -/
def DeviceError.isSoft : DeviceError → Bool
  | .UPLOADCANCELLED | .OK | .NOTCART | .unknown _ => true
  | _ => false

/-- True when the classifier outcome is an invocation of the Termination
Protocol. -/
def ClassifyOutcome.isTerminated : ClassifyOutcome → Bool
  | .terminated _ => true
  | .returned _ => false

/- ===== Filename Generator ===== -/

/-- The fields of `struct tm` that `gen_filename` reads: year since 1900,
zero-based month, day of month, hour, minute, second. -/
structure Tm where
  tm_year : Int
  tm_mon : Int
  tm_mday : Int
  tm_hour : Int
  tm_min : Int
  tm_sec : Int
deriving DecidableEq, Repr

/-- The two function-static variables of `gen_filename`: the same-second
collision counter and the last observed time-of-day value. -/
structure GenState where
  increment : Int
  lasttime : Int
deriving DecidableEq, Repr

/-- `curtime` as computed in `gen_filename`:
`tm_hour*60*60 + tm_min*60 + tm_sec`, the second within the current day. -/
def curtime (t : Tm) : Int := t.tm_hour * 60 * 60 + t.tm_min * 60 + t.tm_sec

/-- The static-state update of `gen_filename`: reset the counter and record
the new time when `curtime` changed, otherwise increment the counter. -/
def genStep (ct : Int) (st : GenState) : GenState :=
  if st.lasttime ≠ ct then ⟨0, ct⟩ else ⟨st.increment + 1, st.lasttime⟩

/-- `sprintf "%02d"` of an integer: decimal digits, zero-padded on the left
to width 2 (values of three or more characters print in full). -/
def fmt02 (n : Int) : CStr :=
  let s := (toString n).data
  if s.length < 2 then '0' :: s else s

/-- The 7-field suffix written into `extraname` by `gen_filename`:
`"%02d%02d%02d%02d%02d%02d%02d"` of year mod 100, month + 1, day, hour,
minute, second, and the counter mod 100 (C `%` is truncated, `Int.tmod`). -/
def gen_suffix (t : Tm) (inc : Int) : CStr :=
  fmt02 ((t.tm_year + 1900).tmod 100) ++ fmt02 (t.tm_mon + 1) ++
  fmt02 t.tm_mday ++ fmt02 t.tm_hour ++ fmt02 t.tm_min ++ fmt02 t.tm_sec ++
  fmt02 (inc.tmod 100)

/-- `gen_filename` from helper.cpp.  `alloc1`/`alloc2` are the success of
the `malloc(DATESIZE)` and the `calloc` for the final name (the external
allocator's choice); `binaryout` is `debug_getbinaryout()`, the configured
output-directory prefix.  Returns the produced name (or `none` on
allocation failure) together with the static state after the call; the
state is updated before either allocation is attempted. -/
def gen_filename (alloc1 alloc2 : Bool) (binaryout : Option CStr)
    (filename fileext : CStr) (t : Tm) (st : GenState) :
    Option CStr × GenState :=
  let st' := genStep (curtime t) st
  if alloc1 = false then (none, st')
  else
    let extraname := gen_suffix t st'.increment
    if alloc2 = false then (none, st')
    else
      match binaryout with
      | some p =>
          (some (p ++ filename ++ "-".data ++ extraname ++ ".".data ++ fileext),
           st')
      | none =>
          (some (filename ++ "-".data ++ extraname ++ ".".data ++ fileext),
           st')

/- ===== Progress Renderer ===== -/

/-- The filled glyph of the progress bar (the Linux branch prints the UTF-8
full block; the Windows branch prints code page character 219, the same
full block). -/
def glyphFull : CStr := ['█']

/-- The empty glyph of the progress bar (light shade). -/
def glyphLight : CStr := ['░']

/-- Truncation of a rational toward zero, the semantics of the C cast
`(int)` applied to a floating value. -/
def truncQ (q : ℚ) : Int := if 0 ≤ q then ⌊q⌋ else -⌊-q⌋

/-- The second loop of `progressbar_draw`: from the index where the first
loop stopped up to `prog_size = 16`, emit one empty glyph per step. -/
def bar_empty (color : Int) (i : Int) : List LogEvent :=
  if h : i < 16 then .colored glyphLight color :: bar_empty color (i + 1)
  else []
termination_by (16 - i).toNat
decreasing_by
  omega

/-- The first loop of `progressbar_draw`: while `i < blocks_done` emit one
filled glyph; the index then falls through into the second loop. -/
def bar_fill (color : Int) (i blocks : Int) : List LogEvent :=
  if h : i < blocks then .colored glyphFull color :: bar_fill color (i + 1) blocks
  else bar_empty color i
termination_by (blocks - i).toNat
decreasing_by
  omega

/-- `"%.02f"` of a rational: round to the nearest hundredth (printf rounds
the double to nearest; ties do not occur at the values this development
evaluates) and print with exactly two decimals. -/
def fmt_f2 (q : ℚ) : CStr :=
  (toString ((round (q * 100)).tdiv 100)).data ++
    '.' :: fmt02 ((round (q * 100)).tmod 100)

/-- `progressbar_draw` from helper.cpp, as its emitted line-output trace.
`percent` is the completion fraction; `blocks_done = (int)(percent*16)`
(multiplying a float by 16 is exact, so the rational model agrees with the
float computation for the cell counts). -/
def progressbar_draw (text : CStr) (color : Int) (percent : ℚ) :
    List LogEvent :=
  let blocks_done := truncQ (percent * 16)
  .replace (text ++ " [".data) color ::
    (bar_fill color 0 blocks_done ++
     [.colored ("] ".data ++ fmt_f2 (percent * 100) ++ "%\n".data) color])

end UNFLoader

namespace UNFLoader

/-- `true` when formatting `v` succeeds and parsing the produced canonical
string gives back exactly `v`. -/
def parseFormatRoundtrip (fmt : Int → Option CStr) (p : CStr → ParseResult)
    (v : Int) : Bool :=
  match fmt v with
  | some s => decide (p s = .ok v)
  | none => false

/-- How many times a given emission occurs in a line-output trace. -/
def countEvent (l : List LogEvent) (ev : LogEvent) : Nat :=
  l.countP (fun x => decide (x = ev))

/- ===== Theorems ===== -/

/-- C2: for each of the three identifier kinds and every enum value in its
valid (non-NONE) range, parsing the canonical full-name string produced by
the formatter returns the value again — `parse (format v) = v` — with the
one-based cartridge/save-type offsets and the zero-based CIC offset
preserved exactly. -/
theorem parse_left_inverse_of_format (v : Int) :
    (CART_64DRIVE1 ≤ v → v ≤ CART_SC64 →
      parseFormatRoundtrip cart_typetostr cart_strtotype v = true) ∧
    (CIC_6101 ≤ v → v ≤ CIC_5101 →
      parseFormatRoundtrip cic_typetostr cic_strtotype v = true) ∧
    (SAVE_EEPROM4K ≤ v → v ≤ SAVE_FLASHRAMPKMN →
      parseFormatRoundtrip save_typetostr save_strtotype v = true) := by
  refine ⟨fun h1 h2 => ?_, fun h1 h2 => ?_, fun h1 h2 => ?_⟩
  · have h1' : (1 : Int) ≤ v := h1
    have h2' : v ≤ (4 : Int) := h2
    interval_cases v <;> decide
  · have h1' : (0 : Int) ≤ v := h1
    have h2' : v ≤ (7 : Int) := h2
    interval_cases v <;> decide
  · have h1' : (1 : Int) ≤ v := h1
    have h2' : v ≤ (6 : Int) := h2
    interval_cases v <;> decide

/-- Witness for C2: round trip at the second cartridge value
(`format 2 = "64Drive HW2"`, parsed back to 2). -/
theorem parse_left_inverse_of_format_witness :
    parseFormatRoundtrip cart_typetostr cart_strtotype 2 = true :=
  (parse_left_inverse_of_format 2).1 (by decide) (by decide)

/-- C10: for every non-NONE enum value in the valid range, the
format-direction table lookup is in bounds: `cart_typetostr` and
`save_typetostr` index at `value - 1` (valid for 1 through the table
length) and `cic_typetostr` indexes at the value itself (valid for 0
through length minus one), so the out-of-bounds branch of the embedded
lookup is unreachable. -/
theorem typetostr_lookup_in_bounds (v : Int) :
    (CART_64DRIVE1 ≤ v → v ≤ CART_SC64 →
      (cart_typetostr v).isSome = true) ∧
    (CIC_6101 ≤ v → v ≤ CIC_5101 →
      (cic_typetostr v).isSome = true) ∧
    (SAVE_EEPROM4K ≤ v → v ≤ SAVE_FLASHRAMPKMN →
      (save_typetostr v).isSome = true) := by
  refine ⟨fun h1 h2 => ?_, fun h1 h2 => ?_, fun h1 h2 => ?_⟩
  · have h1' : (1 : Int) ≤ v := h1
    have h2' : v ≤ (4 : Int) := h2
    interval_cases v <;> decide
  · have h1' : (0 : Int) ≤ v := h1
    have h2' : v ≤ (7 : Int) := h2
    interval_cases v <;> decide
  · have h1' : (1 : Int) ≤ v := h1
    have h2' : v ≤ (6 : Int) := h2
    interval_cases v <;> decide

/-- Witness for C10: the lookup at the last CIC value is in bounds. -/
theorem typetostr_lookup_in_bounds_witness :
    (cic_typetostr 7).isSome = true :=
  (typetostr_lookup_in_bounds 7).2.1 (by decide) (by decide)

/-- C1: the device-error classifier is total over the error domain and, for
every error value, produces exactly one of two outcomes: it returns without
terminating exactly on the soft values (the user-cancelled upload, the two
sentinels, and any out-of-domain code), and otherwise invokes the
Termination Protocol with the variant-specific message; in particular the
memory-allocation-failure variant terminates like a hard failure. -/
theorem handle_deviceerror_dichotomy (linux : Bool) (cart : Int)
    (err : DeviceError) :
    ((handle_deviceerror linux cart err).isTerminated = true ↔
      err.isSoft = false) ∧
    handle_deviceerror linux cart .MALLOCFAIL =
      .terminated "Malloc failure.".data := by
  constructor
  · cases err <;>
      simp only [handle_deviceerror, DeviceError.isSoft,
        ClassifyOutcome.isTerminated] <;>
      first
        | (split_ifs <;> simp [ClassifyOutcome.isTerminated])
        | simp
  · rfl

/-- C6 counterexample: classifying either sentinel emits no log event at
all — the outcome is `returned []`, with no "unhandled error code"
warning — so the claim that the sentinels log the generic warning fails at
`DEVICEERR_OK` (and `DEVICEERR_NOTCART`). -/
theorem classifier_sentinels_silent :
    handle_deviceerror true CART_NONE .OK = .returned [] ∧
    handle_deviceerror true CART_NONE .NOTCART = .returned [] := ⟨rfl, rfl⟩

/-- C6 amended: classifying a sentinel (`DEVICEERR_OK`, `DEVICEERR_NOTCART`)
or any unrecognized/out-of-domain value never invokes the Termination
Protocol; the sentinels return silently, while an unrecognized value logs
the generic "Unhandled device error" warning naming its numeric code. -/
theorem classifier_default_branch (linux : Bool) (cart : Int) (n : Int) :
    handle_deviceerror linux cart .OK = .returned [] ∧
    handle_deviceerror linux cart .NOTCART = .returned [] ∧
    handle_deviceerror linux cart (.unknown n) =
      .returned [.colored ("Unhandled device error '".data ++
        (toString n).data ++ "'.\n".data) CRDEF_ERROR] :=
  ⟨rfl, rfl, rfl⟩

/-- The static state a `gen_filename` call leaves behind is `genStep` of the
current time-of-day, regardless of the allocator's answers or the
output-directory configuration: the update happens before any allocation. -/
theorem gen_filename_state_eq (a1 a2 : Bool) (bo : Option CStr)
    (f e : CStr) (t : Tm) (st : GenState) :
    (gen_filename a1 a2 bo f e t st).2 = genStep (curtime t) st := by
  unfold gen_filename
  cases a1 <;> cases a2 <;> cases bo <;> simp

/-- After any `genStep`, the recorded last time is the current time. -/
theorem genStep_lasttime (ct : Int) (st : GenState) :
    (genStep ct st).lasttime = ct := by
  unfold genStep
  split
  · rfl
  · next h => exact not_not.mp h

/-- A `genStep` at an unchanged time-of-day increments the counter. -/
theorem genStep_same (ct : Int) (st : GenState) (h : st.lasttime = ct) :
    genStep ct st = ⟨st.increment + 1, st.lasttime⟩ := by
  unfold genStep
  rw [if_neg]
  simp [h]

/-- C4 counterexample: the previous call ran at 2024-05-10 12:00:00, leaving
counter 0 and last observed time-of-day 43200 s; this call runs exactly one
day later, at 2024-05-11 12:00:00 — a strictly later wall-clock second —
yet the counter becomes 1 instead of resetting to 0, because the
same-second test compares only `hour*3600 + min*60 + sec`. -/
theorem gen_filename_no_reset_one_day_later :
    (gen_filename true true none "save".data "bin".data
      ⟨124, 4, 11, 12, 0, 0⟩ ⟨0, 43200⟩).2 = ⟨1, 43200⟩ := by decide

/-- C4 amended: two generation calls in the same wall-clock second produce
suffixes that differ only in the trailing two-digit counter field, and the
counter strictly increases (it is one larger); a later call resets the
counter to zero and updates the last-time marker provided its time-of-day
second (`hour*3600 + min*60 + sec`) differs from the recorded one — a call
made exactly a whole number of days later hits the same time-of-day and
increments the counter instead of resetting it. -/
theorem gen_filename_counter (bo : Option CStr) (f e : CStr) (t : Tm)
    (st : GenState) :
    (∃ timefields, ∀ i : Int,
      gen_suffix t i = timefields ++ fmt02 (i.tmod 100)) ∧
    ((gen_filename true true bo f e t
        ((gen_filename true true bo f e t st).2)).2.increment =
      (gen_filename true true bo f e t st).2.increment + 1) ∧
    (curtime t ≠ st.lasttime →
      (gen_filename true true bo f e t st).2 = ⟨0, curtime t⟩) ∧
    (curtime t = st.lasttime →
      (gen_filename true true bo f e t st).2 =
        ⟨st.increment + 1, st.lasttime⟩) := by
  refine ⟨⟨fmt02 ((t.tm_year + 1900).tmod 100) ++ fmt02 (t.tm_mon + 1) ++
      fmt02 t.tm_mday ++ fmt02 t.tm_hour ++ fmt02 t.tm_min ++ fmt02 t.tm_sec,
      fun i => by simp [gen_suffix, List.append_assoc]⟩, ?_, ?_, ?_⟩
  · rw [gen_filename_state_eq, gen_filename_state_eq,
      genStep_same _ _ (genStep_lasttime _ _)]
  · intro h
    rw [gen_filename_state_eq]
    unfold genStep
    rw [if_pos (Ne.symm h)]
  · intro h
    rw [gen_filename_state_eq, genStep_same _ _ h.symm]

/-- Witness for C4 (amended): a call whose time-of-day (12:00:00, 43200 s)
differs from the recorded last time (0) resets the counter to zero. -/
theorem gen_filename_counter_witness :
    (gen_filename true true none "save".data "bin".data
      ⟨124, 4, 10, 12, 0, 0⟩ ⟨5, 0⟩).2 = ⟨0, curtime ⟨124, 4, 10, 12, 0, 0⟩⟩ :=
  (gen_filename_counter none "save".data "bin".data
    ⟨124, 4, 10, 12, 0, 0⟩ ⟨5, 0⟩).2.2.1 (by decide)

/-- C7: `gen_filename` returns null whenever either intermediate allocation
fails (its body contains no invocation of the Termination Protocol: failure
is only signalled through the null return); on success it returns the
output-directory prefix (when configured) followed by the base name, the
`-` separator, the time-and-counter suffix, a dot, and the extension. -/
theorem gen_filename_alloc_contract (a1 a2 : Bool) (bo : Option CStr)
    (f e : CStr) (t : Tm) (st : GenState) :
    (a1 = false ∨ a2 = false → (gen_filename a1 a2 bo f e t st).1 = none) ∧
    (∀ p, bo = some p →
      (gen_filename true true bo f e t st).1 =
        some (p ++ f ++ "-".data ++
          gen_suffix t (genStep (curtime t) st).increment ++ ".".data ++ e)) ∧
    (bo = none →
      (gen_filename true true bo f e t st).1 =
        some (f ++ "-".data ++
          gen_suffix t (genStep (curtime t) st).increment ++ ".".data ++ e)) := by
  refine ⟨?_, ?_, ?_⟩
  · rintro (rfl | rfl)
    · simp [gen_filename]
    · cases a1 <;> simp [gen_filename]
  · intro p hp
    subst hp
    unfold gen_filename
    simp
  · intro h
    subst h
    unfold gen_filename
    simp

/-- Witness for C7: with the first allocation failing, the call returns
null. -/
theorem gen_filename_alloc_contract_witness :
    (gen_filename false true none "save".data "bin".data
      ⟨124, 0, 1, 0, 0, 0⟩ ⟨0, 0⟩).1 = none :=
  (gen_filename_alloc_contract false true none "save".data "bin".data
    ⟨124, 0, 1, 0, 0, 0⟩ ⟨0, 0⟩).1 (Or.inl rfl)

/-- C9: every call updates the process-wide generator state according to the
same-second rule before attempting any allocation, so a call that fails to
allocate leaves exactly the state a successful call would have left, and a
subsequent successful call in the same second skips a counter value (the
failing call consumed it). -/
theorem gen_filename_error_path_state (a1 a2 : Bool) (bo : Option CStr)
    (f e : CStr) (t : Tm) (st : GenState) :
    (gen_filename a1 a2 bo f e t st).2 =
      (gen_filename true true bo f e t st).2 ∧
    (a1 = false ∨ a2 = false → (gen_filename a1 a2 bo f e t st).1 = none) ∧
    (st.lasttime = curtime t →
      (gen_filename true true bo f e t
        ((gen_filename false false bo f e t st).2)).2.increment =
        st.increment + 2) := by
  refine ⟨?_, ?_, ?_⟩
  · rw [gen_filename_state_eq, gen_filename_state_eq]
  · rintro (rfl | rfl)
    · simp [gen_filename]
    · cases a1 <;> simp [gen_filename]
  · intro h
    rw [gen_filename_state_eq, gen_filename_state_eq,
      genStep_same (curtime t) st h,
      genStep_same (curtime t) ⟨st.increment + 1, st.lasttime⟩ h]
    show st.increment + 1 + 1 = st.increment + 2
    omega

/-- Witness for C9: at midnight (time-of-day 0) with recorded last time 0,
a failing call followed by a successful call leaves the counter at 2,
skipping the value the failing call consumed. -/
theorem gen_filename_error_path_state_witness :
    (gen_filename true true none "a".data "b".data ⟨124, 0, 1, 0, 0, 0⟩
      ((gen_filename false false none "a".data "b".data
        ⟨124, 0, 1, 0, 0, 0⟩ ⟨0, 0⟩).2)).2.increment = 0 + 2 :=
  (gen_filename_error_path_state true true none "a".data "b".data
    ⟨124, 0, 1, 0, 0, 0⟩ ⟨0, 0⟩).2.2 rfl

/-- C5 counterexample: invoked with no message at all (`NULL` reason) and no
resource open, `terminate` still begins with an error-colored line — the
unconditional `log_colored("\n", CRDEF_ERROR)` — although the claim allows
error-colored output (the message line and the following blank line) only
when a message was supplied. -/
theorem terminate_blank_line_without_message :
    terminate true none ⟨false, false, false⟩ =
      [.logColored "\n".data CRDEF_ERROR,
       .logColored "Press any key to continue...\n".data CRDEF_INPUT,
       .rawKeypress, .setTerminating, .termEnd, .exitProcess (-1)] := rfl

/-- C5 amended: `terminate` follows a single forward path: the formatted
error-colored message line appears first exactly when a message was
supplied (non-NULL and non-empty), a blank error-colored line is emitted
unconditionally, the debug-output handle is closed only if open and the
device only if open (no-ops otherwise, so the protocol is safe at any point
after process start, as the universal quantification over the state shows),
then the input-colored prompt, the platform-appropriate single-keypress
wait, the terminating flag, the rendering-surface teardown, and a process
exit with the non-zero status -1, in this order. -/
theorem terminate_protocol (linux : Bool) (reason : Option CStr)
    (st : TermState) :
    ∃ msgpart keypart,
      terminate linux reason st =
        msgpart ++ [.logColored "\n".data CRDEF_ERROR] ++
        (if st.debugOpen then [.closeDebugOut] else []) ++
        (if st.deviceOpen then [.closeDevice] else []) ++
        [.logColored "Press any key to continue...\n".data CRDEF_INPUT] ++
        keypart ++ [.setTerminating, .termEnd, .exitProcess (-1)] ∧
      (∀ m, reason = some m → m ≠ [] →
        msgpart = [.logColored ("Error: ".data ++ m) CRDEF_ERROR]) ∧
      (reason = none ∨ reason = some [] → msgpart = []) ∧
      keypart = (if st.usingCurses then [.cursesGetch]
                 else if linux then [.rawKeypress] else [.systemPause]) ∧
      (-1 : Int) ≠ 0 := by
  refine ⟨(match reason with
           | none => []
           | some m => if m = [] then []
                       else [.logColored ("Error: ".data ++ m) CRDEF_ERROR]),
          (if st.usingCurses then [.cursesGetch]
           else if linux then [.rawKeypress] else [.systemPause]),
          rfl, ?_, ?_, rfl, by decide⟩
  · intro m hm hne
    subst hm
    simp [if_neg hne]
  · rintro (rfl | rfl) <;> simp

/-- The table search misses exactly when the string is not in the table. -/
theorem strTableFind_eq_none (tbl : List CStr) (s : CStr) :
    strTableFind tbl s = none ↔ s ∉ tbl := by
  induction tbl with
  | nil => simp [strTableFind]
  | cons t rest ih =>
      by_cases h : t = s
      · subst h
        simp [strTableFind]
      · simp [strTableFind, h, Option.map_eq_none', ih, Ne.symm h]

/-- Reading a NUL at index `i` of a NUL-free string means the string ends
at or before `i`. -/
theorem cchar_nul_of_nulFree (s : CStr) (i : Nat) (hnf : nulFree s = true)
    (h : cchar s i = NUL) : s.length ≤ i := by
  by_contra hlt
  push_neg at hlt
  have hget : cchar s i = s.get ⟨i, hlt⟩ := by
    unfold cchar
    rw [List.getD_eq_getElem s NUL hlt]
    rfl
  have hmem : s.get ⟨i, hlt⟩ ∈ s := List.get_mem s i hlt
  have hne := List.all_eq_true.mp hnf _ hmem
  rw [hget] at h
  exact absurd h (of_decide_eq_true hne)

/-- A nonempty string that reads NUL at index 1 has length exactly 1. -/
theorem length_one_of_cchar_one (s : CStr) (hnf : nulFree s = true)
    (hnul : cchar s 1 = NUL) (h0 : s ≠ []) : s.length = 1 := by
  have h1 := cchar_nul_of_nulFree s 1 hnf hnul
  cases s with
  | nil => exact absurd rfl h0
  | cons a rest =>
      simp only [List.length_cons] at h1 ⊢
      omega

/-- C3: for each identifier kind, parsing accepts exactly the single-digit
numeric shorthand (a length-1 string whose character lies in the
`'0'+range` window, returning the digit's value) and the exact,
case-sensitive canonical full-name string (returning its table position
plus the kind's offset); every other NUL-free string — the empty string and
multi-digit numeric strings included — makes the parser invoke the
Termination Protocol with a message quoting the offending text verbatim,
so no usable value is ever produced for it. -/
theorem strtotype_accepts_exactly (s : CStr) (hnf : nulFree s = true) :
    ((s.length = 1 ∧ digit0 + CART_64DRIVE1 ≤ ((cchar s 0).toNat : Int) ∧
        ((cchar s 0).toNat : Int) ≤ digit0 + CART_SC64) →
      cart_strtotype s = .ok (((cchar s 0).toNat : Int) - digit0)) ∧
    (∀ i : Nat, cart_strings.get? i = some s →
      cart_strtotype s = .ok ((i : Int) + 1)) ∧
    (¬(s.length = 1 ∧ digit0 + CART_64DRIVE1 ≤ ((cchar s 0).toNat : Int) ∧
        ((cchar s 0).toNat : Int) ≤ digit0 + CART_SC64) →
      s ∉ cart_strings →
      cart_strtotype s =
        .terminated ("Unknown flashcart type '".data ++ s ++ "'".data)) ∧
    ((s.length = 1 ∧ digit0 + CIC_6101 ≤ ((cchar s 0).toNat : Int) ∧
        ((cchar s 0).toNat : Int) ≤ digit0 + CIC_5101) →
      cic_strtotype s = .ok (((cchar s 0).toNat : Int) - digit0)) ∧
    (∀ i : Nat, cic_strings.get? i = some s →
      cic_strtotype s = .ok (i : Int)) ∧
    (¬(s.length = 1 ∧ digit0 + CIC_6101 ≤ ((cchar s 0).toNat : Int) ∧
        ((cchar s 0).toNat : Int) ≤ digit0 + CIC_5101) →
      s ∉ cic_strings →
      cic_strtotype s =
        .terminated ("Unknown CIC '".data ++ s ++ "'".data)) ∧
    ((s.length = 1 ∧ digit0 + SAVE_EEPROM4K ≤ ((cchar s 0).toNat : Int) ∧
        ((cchar s 0).toNat : Int) ≤ digit0 + SAVE_FLASHRAMPKMN) →
      save_strtotype s = .ok (((cchar s 0).toNat : Int) - digit0)) ∧
    (∀ i : Nat, save_strings.get? i = some s →
      save_strtotype s = .ok ((i : Int) + 1)) ∧
    (¬(s.length = 1 ∧ digit0 + SAVE_EEPROM4K ≤ ((cchar s 0).toNat : Int) ∧
        ((cchar s 0).toNat : Int) ≤ digit0 + SAVE_FLASHRAMPKMN) →
      s ∉ save_strings →
      save_strtotype s =
        .terminated ("Unknown save type '".data ++ s ++ "'".data)) := by
  have hshort : s.length = 1 → cchar s 1 = NUL := by
    intro hlen
    cases s with
    | nil => simp at hlen
    | cons a rest =>
        simp at hlen
        subst hlen
        rfl
  refine ⟨?_, ?_, ?_, ?_, ?_, ?_, ?_, ?_, ?_⟩
  · rintro ⟨hlen, hb1, hb2⟩
    unfold cart_strtotype
    rw [if_pos ⟨hb1, hb2, hshort hlen⟩]
  · intro i hi
    rcases i with _ | _ | _ | _ | j <;> simp [cart_strings] at hi <;>
      (subst hi; decide)
  · intro hno hmem
    unfold cart_strtotype
    rw [if_neg, (strTableFind_eq_none _ _).mpr hmem]
    rintro ⟨hb1, hb2, hnul⟩
    refine hno ⟨?_, hb1, hb2⟩
    refine length_one_of_cchar_one s hnf hnul ?_
    rintro rfl
    revert hb1
    decide
  · rintro ⟨hlen, hb1, hb2⟩
    unfold cic_strtotype
    rw [if_pos ⟨hb1, hb2, hshort hlen⟩]
  · intro i hi
    rcases i with _ | _ | _ | _ | _ | _ | _ | _ | j <;>
      simp [cic_strings] at hi <;> (subst hi; decide)
  · intro hno hmem
    unfold cic_strtotype
    rw [if_neg, (strTableFind_eq_none _ _).mpr hmem]
    rintro ⟨hb1, hb2, hnul⟩
    refine hno ⟨?_, hb1, hb2⟩
    refine length_one_of_cchar_one s hnf hnul ?_
    rintro rfl
    revert hb1
    decide
  · rintro ⟨hlen, hb1, hb2⟩
    unfold save_strtotype
    rw [if_pos ⟨hb1, hb2, hshort hlen⟩]
  · intro i hi
    rcases i with _ | _ | _ | _ | _ | _ | j <;>
      simp [save_strings] at hi <;> (subst hi; decide)
  · intro hno hmem
    unfold save_strtotype
    rw [if_neg, (strTableFind_eq_none _ _).mpr hmem]
    rintro ⟨hb1, hb2, hnul⟩
    refine hno ⟨?_, hb1, hb2⟩
    refine length_one_of_cchar_one s hnf hnul ?_
    rintro rfl
    revert hb1
    decide

/-- Witness for C3: `"bogus"` matches neither form for the save-type kind,
so parsing terminates with the message quoting `bogus`. -/
theorem strtotype_accepts_exactly_witness :
    save_strtotype "bogus".data =
      .terminated "Unknown save type 'bogus'".data :=
  (strtotype_accepts_exactly "bogus".data
    (by decide)).2.2.2.2.2.2.2.2 (by decide) (by decide)

/-- The empty-glyph loop emits exactly one light glyph per index from `i`
up to 16. -/
theorem bar_empty_eq (color : Int) (i : Int) :
    bar_empty color i =
      List.replicate (16 - i).toNat (LogEvent.colored glyphLight color) := by
  suffices h : ∀ n : Nat, ∀ i : Int, (16 - i).toNat = n →
      bar_empty color i =
        List.replicate n (LogEvent.colored glyphLight color) by
    exact h _ i rfl
  intro n
  induction n with
  | zero =>
      intro i hn
      rw [bar_empty, dif_neg (by omega)]
      rfl
  | succ k ih =>
      intro i hn
      rw [bar_empty, dif_pos (by omega : i < 16), ih (i + 1) (by omega)]
      rfl

/-- The filled-glyph loop emits one full glyph per index from `i` up to
`blocks`, then falls through into the empty-glyph loop. -/
theorem bar_fill_eq (color : Int) (i blocks : Int) :
    bar_fill color i blocks =
      List.replicate (blocks - i).toNat (LogEvent.colored glyphFull color) ++
        bar_empty color (max i blocks) := by
  suffices h : ∀ n : Nat, ∀ i : Int, (blocks - i).toNat = n →
      bar_fill color i blocks =
        List.replicate n (LogEvent.colored glyphFull color) ++
          bar_empty color (max i blocks) by
    exact h _ i rfl
  intro n
  induction n with
  | zero =>
      intro i hn
      rw [bar_fill, dif_neg (by omega), max_eq_left (by omega : blocks ≤ i)]
      rfl
  | succ k ih =>
      intro i hn
      rw [bar_fill, dif_pos (by omega : i < blocks), ih (i + 1) (by omega),
        max_eq_right (by omega : i + 1 ≤ blocks),
        max_eq_right (by omega : i ≤ blocks)]
      rfl

/-- Counting in a singleton-free empty trace. -/
theorem countEvent_nil (ev : LogEvent) : countEvent [] ev = 0 := rfl

/-- Counting steps through a cons cell. -/
theorem countEvent_cons (a : LogEvent) (l : List LogEvent) (ev : LogEvent) :
    countEvent (a :: l) ev =
      countEvent l ev + (if a = ev then 1 else 0) := by
  simp [countEvent, List.countP_cons]

/-- Counting distributes over concatenation. -/
theorem countEvent_append (l1 l2 : List LogEvent) (ev : LogEvent) :
    countEvent (l1 ++ l2) ev = countEvent l1 ev + countEvent l2 ev := by
  simp [countEvent, List.countP_append]

/-- Counting in a replicated trace. -/
theorem countEvent_replicate (n : Nat) (a ev : LogEvent) :
    countEvent (List.replicate n a) ev = if a = ev then n else 0 := by
  induction n with
  | zero => simp [countEvent]
  | succ k ih =>
      rw [List.replicate_succ, countEvent_cons, ih]
      split_ifs <;> omega

/-- The closing-bracket emission is never mistaken for a one-character
glyph emission: its message is at least four characters long. -/
theorem tail_ne_glyph (mid : CStr) (c1 c2 : Int) (g : CStr)
    (hg : g.length = 1) :
    ¬ (LogEvent.colored ("] ".data ++ mid ++ "%\n".data) c1 =
       LogEvent.colored g c2) := by
  intro h
  injection h with h1 h2
  apply_fun List.length at h1
  rw [hg] at h1
  simp [List.length_append] at h1

/-- C8: the progress bar renders exactly `⌊fraction * 16⌋` filled cells and
`16 - ⌊fraction * 16⌋` empty cells, and ends the line with the percentage
`fraction * 100` formatted to two decimal places; the formatter yields
`0.00` at fraction 0 and `100.00` at fraction 1 (and the cell counts give
0, 8 and 16 filled cells at fractions 0, 1/2 and 1). -/
theorem progressbar_draw_cells (text : CStr) (color : Int) (q : ℚ)
    (h0 : 0 ≤ q) (h1 : q ≤ 1) :
    countEvent (progressbar_draw text color q)
        (.colored glyphFull color) = (⌊q * 16⌋).toNat ∧
    countEvent (progressbar_draw text color q)
        (.colored glyphLight color) = 16 - (⌊q * 16⌋).toNat ∧
    (progressbar_draw text color q).getLast? =
      some (.colored ("] ".data ++ fmt_f2 (q * 100) ++ "%\n".data) color) ∧
    fmt_f2 ((0 : ℚ) * 100) = "0.00".data ∧
    fmt_f2 ((1 : ℚ) * 100) = "100.00".data := by
  have hq16 : (0 : ℚ) ≤ q * 16 := mul_nonneg h0 (by norm_num)
  have hb0 : (0 : Int) ≤ ⌊q * 16⌋ := Int.floor_nonneg.mpr hq16
  have hb16 : ⌊q * 16⌋ ≤ 16 := by
    have hle : q * 16 ≤ 16 := by nlinarith
    have := Int.floor_le_floor hle
    simpa using this
  have htr : truncQ (q * 16) = ⌊q * 16⌋ := by
    unfold truncQ
    rw [if_pos hq16]
  have hexpand1 : progressbar_draw text color q =
      LogEvent.replace (text ++ " [".data) color ::
        (bar_fill color 0 (truncQ (q * 16)) ++
          [.colored ("] ".data ++ fmt_f2 (q * 100) ++ "%\n".data) color]) :=
    rfl
  have hexpand : progressbar_draw text color q =
      LogEvent.replace (text ++ " [".data) color ::
        (List.replicate (⌊q * 16⌋).toNat (LogEvent.colored glyphFull color) ++
          List.replicate (16 - ⌊q * 16⌋).toNat
            (LogEvent.colored glyphLight color) ++
          [.colored ("] ".data ++ fmt_f2 (q * 100) ++ "%\n".data) color]) := by
    rw [hexpand1, htr, bar_fill_eq, max_eq_right hb0, bar_empty_eq]
    simp [List.append_assoc]
  have hgl : ¬ (LogEvent.colored glyphLight color =
      LogEvent.colored glyphFull color) := by
    simp [glyphLight, glyphFull]
  have hlg : ¬ (LogEvent.colored glyphFull color =
      LogEvent.colored glyphLight color) := by
    simp [glyphLight, glyphFull]
  have htlf := tail_ne_glyph (fmt_f2 (q * 100)) color color glyphFull rfl
  have htll := tail_ne_glyph (fmt_f2 (q * 100)) color color glyphLight rfl
  have hrf : ¬ (LogEvent.replace (text ++ " [".data) color =
      LogEvent.colored glyphFull color) := by
    simp
  have hrl : ¬ (LogEvent.replace (text ++ " [".data) color =
      LogEvent.colored glyphLight color) := by
    simp
  have hf0 : fmt_f2 ((0 : ℚ) * 100) = "0.00".data := by
    have hr : round ((0 : ℚ) * 100 * 100) = 0 := by norm_num
    simp only [fmt_f2, hr]
    decide
  have hf1 : fmt_f2 ((1 : ℚ) * 100) = "100.00".data := by
    have hr : round ((1 : ℚ) * 100 * 100) = 10000 := by
      norm_num [round_eq]
    simp only [fmt_f2, hr]
    decide
  refine ⟨?_, ?_, ?_, hf0, hf1⟩
  · rw [hexpand, countEvent_cons, countEvent_append, countEvent_append,
      countEvent_replicate, countEvent_replicate, countEvent_cons,
      countEvent_nil, if_pos rfl, if_neg hgl, if_neg htlf, if_neg hrf]
    omega
  · rw [hexpand, countEvent_cons, countEvent_append, countEvent_append,
      countEvent_replicate, countEvent_replicate, countEvent_cons,
      countEvent_nil, if_neg hlg, if_pos rfl, if_neg htll, if_neg hrl]
    omega
  · rw [hexpand, ← List.cons_append, List.getLast?_concat]

/-- Witness for C8 at fraction 1/2: the bar contains exactly 8 filled
cells. -/
theorem progressbar_draw_cells_witness :
    countEvent (progressbar_draw "Uploading".data 1 (1 / 2))
      (.colored glyphFull 1) = (⌊(1 / 2 : ℚ) * 16⌋).toNat :=
  (progressbar_draw_cells "Uploading".data 1 (1 / 2)
    (by norm_num) (by norm_num)).1

end UNFLoader
